import Mathlib

/-!
Shallow embedding of the image-upload workflow and HTTP error translation of
the autoelite-admin repository.

Sources embedded:
  * the uploader component (`onDrop`, `handleRemoveImage`,
    `handleSaveImageMetadata`, `getCloudflareImageUrl`) from the
    EnhancedCloudflareImageUploader file;
  * the response-handling part of `fetchWithAuth` from
    src/shared/services/api.ts.

Modelling conventions:
  * JavaScript `undefined`/`null` string values are `Option String`; JS
    truthiness of a string (empty string is falsy) is made explicit where the
    source relies on it (`jsOrStr`, `strTruthy`, `natTruthy`).
  * The wall clock (`new Date().toISOString()`) is a parameter `nowIso`;
    within one `onDrop` run the source calls it several times, here all
    occurrences read the same parameter.
  * Network effects are oracles: an upload oracle gives the outcome of the
    i-th upload call of a batch, a delete oracle gives the outcome of
    deleting a given image id.  Every network call issued is recorded in a
    trace (`NetCall`), and every caller notification (`onImagesUploaded`)
    is recorded in a `notified` field.
  * Floating point: `Math.round((i / n) * 100)` is modelled by its exact
    rational value, `(200 * i + n) / (2 * n)` in natural division
    (round-half-up of `100 * i / n`).
-/

/-- JS `a || b` for an optional string `a`: `undefined`, `null` and the empty
string are falsy. -/
def jsOrStr (a : Option String) (b : String) : String :=
  match a with
  | none => b
  | some s => if s = "" then b else s

/-- JS truthiness of a string value (`undefined`/`null`/`""` are falsy). -/
def strTruthy (a : Option String) : Bool :=
  match a with
  | none => false
  | some s => s != ""

/-- JS truthiness of an optional number (`undefined` and `0` are falsy). -/
def natTruthy (a : Option Nat) : Bool :=
  match a with
  | none => false
  | some n => n != 0

/-- Interpolation of a possibly-undefined string into a JS template literal:
`undefined` renders as the text "undefined". -/
def optStr (a : Option String) : String :=
  match a with
  | none => "undefined"
  | some s => s

/-- Kernel-evaluable model of JS `s.startsWith(p)` (Lean's
`String.startsWith` is a well-founded loop the kernel cannot unfold, so the
character-list equivalent is used throughout). -/
def jsStartsWith (s p : String) : Bool :=
  p.data.isPrefixOf s.data

/-- Interpolation of a possibly-undefined number into a JS template literal. -/
def optNatStr (a : Option Nat) : String :=
  match a with
  | none => "undefined"
  | some n => toString n

/-- `CloudflareImage` record from the shared types file.  `metadata` is the
metadata object attached at upload time (see `Metadata`). -/
structure Metadata where
  project : String
  source : String
  application : String
  projectName : Option String
  dealerId : Option Nat
  vehicleId : Option Nat
  originalFilename : String
  uploadDate : String
  fileType : String
  fileSize : Nat
  description : String
deriving Repr, DecidableEq

structure CloudflareImage where
  id : String
  url : Option String
  filename : Option String
  uploaded : Option String
  tags : List String
  metadata : Option Metadata
deriving Repr, DecidableEq

/-- A dropped file: the fields of the browser `File` object the source
reads (`name`, `type`, `size`). -/
structure DroppedFile where
  name : String
  fileType : String
  size : Nat
deriving Repr, DecidableEq

/-- Uploader configuration: the props of the component that the embedded
operations read. -/
structure UploaderConfig where
  maxImages : Nat
  projectName : Option String
  dealerId : Option Nat
  vehicleId : Option Nat
  cfImageDeliveryUrl : String
  cfAccountHash : String
  projectIdentifier : String
  applicationIdentifier : String
deriving Repr, DecidableEq

/-- The JS value of `imageData.variants` in an upload response:
absent (`undefined`), an array of URLs, or a single string. -/
inductive VariantsVal where
  | undef : VariantsVal
  | arr : List String → VariantsVal
  | str : String → VariantsVal
deriving Repr, DecidableEq

/-- The `image` payload of an upload response. -/
structure ImagePayload where
  id : String
  variants : VariantsVal
  filename : Option String
  uploaded : Option String
deriving Repr, DecidableEq

/-- An upload response body: `{ success, image }`. -/
structure UploadResponse where
  success : Bool
  image : Option ImagePayload
deriving Repr, DecidableEq

/-- Outcome of one `imagesApi.upload` call: the promise either rejects with
an error message or resolves to a response body. -/
inductive UploadOutcome where
  | threw : String → UploadOutcome
  | returned : UploadResponse → UploadOutcome
deriving Repr, DecidableEq

/-- A network call issued by the uploader, as recorded in the trace. -/
inductive NetCall where
  | deleteImage : String → NetCall
  | uploadImage : Nat → NetCall
deriving Repr, DecidableEq

/-- Component state read and written by `onDrop`. -/
structure DropState where
  uploadedImages : List CloudflareImage
  isUploading : Bool
  uploadProgress : Nat
  error : Option String
deriving Repr, DecidableEq

/-- Result of an `onDrop` run: the final component state, the network calls
issued in order, the list passed to `onImagesUploaded` (if any), and the
successive values given to `setUploadProgress` inside the loop (the final
reset to 0 is reflected in `state.uploadProgress`). -/
structure DropResult where
  state : DropState
  calls : List NetCall
  notified : Option (List CloudflareImage)
  progressReports : List Nat
deriving Repr, DecidableEq

/-- Exact value of `Math.round((num / den) * 100)` on rationals:
round-half-up of `100 * num / den`. -/
def jsRound100 (num den : Nat) : Nat :=
  (200 * num + den) / (2 * den)

/-- The timestamp computation of `onDrop`:
`toISOString().replace(/[-:]/g, '').replace('T', '_').split('.')[0]`. -/
def timestampOf (nowIso : String) : String :=
  ((((nowIso.replace "-" "").replace ":" "").replace "T" "_").splitOn ".").headD ""

/-- `file.name.split('.').pop()?.toLowerCase() || 'jpg'`. -/
def extensionOf (f : DroppedFile) : String :=
  let e := ((f.name.splitOn ".").getLastD "").toLower
  if e = "" then "jpg" else e

/-- The standardized filename synthesized for the i-th file of a batch. -/
def standardizedFilename (cfg : UploaderConfig) (nowIso : String)
    (f : DroppedFile) (i : Nat) : String :=
  let dealerPart := if natTruthy cfg.dealerId then
    "dealer" ++ optNatStr cfg.dealerId ++ "_" else ""
  let vehiclePart := if natTruthy cfg.vehicleId then
    "vehicle" ++ optNatStr cfg.vehicleId ++ "_" else ""
  optStr cfg.projectName ++ "_" ++ dealerPart ++ vehiclePart ++
    timestampOf nowIso ++ "_" ++ toString i ++ "." ++ extensionOf f

/-- The metadata object built for one upload. -/
def mkMetadata (cfg : UploaderConfig) (nowIso : String) (f : DroppedFile) :
    Metadata :=
  { project := cfg.projectIdentifier
    source := "admin-site"
    application := cfg.applicationIdentifier
    projectName := cfg.projectName
    dealerId := cfg.dealerId
    vehicleId := cfg.vehicleId
    originalFilename := f.name
    uploadDate := nowIso
    fileType := f.fileType
    fileSize := f.size
    description := cfg.applicationIdentifier ++ " " ++ optStr cfg.projectName
      ++ " " ++ (if natTruthy cfg.dealerId then
                   "dealer " ++ optNatStr cfg.dealerId else "")
      ++ " " ++ (if natTruthy cfg.vehicleId then
                   "vehicle " ++ optNatStr cfg.vehicleId else "") }

/-- The hardcoded fallback delivery URL
`https://imagedelivery.net/<hash>/<id>/public` of the upload path. -/
def cfFallbackUrl (accountHash imageId : String) : String :=
  "https://imagedelivery.net/" ++ accountHash ++ "/" ++ imageId ++ "/public"

/-- The `url` field of the record built from an upload response:
`imageData.variants ? (Array.isArray(v) ? v[0] : v) : fallback`.
An empty array is truthy in JS, so `.arr []` yields `v[0] = undefined`;
an empty string is falsy and yields the fallback. -/
def mkUploadUrl (accountHash : String) (p : ImagePayload) : Option String :=
  match p.variants with
  | VariantsVal.undef => some (cfFallbackUrl accountHash p.id)
  | VariantsVal.arr xs => xs.head?
  | VariantsVal.str s =>
      if s = "" then some (cfFallbackUrl accountHash p.id) else some s

/-- The normalized image record constructed from a successful upload
response (the `newImage` object of `onDrop`). -/
def mkNewImage (cfg : UploaderConfig) (nowIso : String) (f : DroppedFile)
    (i : Nat) (p : ImagePayload) : CloudflareImage :=
  { id := p.id
    url := mkUploadUrl cfg.cfAccountHash p
    filename := some (jsOrStr p.filename (standardizedFilename cfg nowIso f i))
    uploaded := some (jsOrStr p.uploaded nowIso)
    tags := []
    metadata := some (mkMetadata cfg nowIso f) }

/-- The capacity error message of `onDrop`. -/
def capacityMessage (maxImages : Nat) : String :=
  "You can only upload a maximum of " ++ toString maxImages ++ " images."

/-- The error message thrown on a response without the expected shape. -/
def invalidResponseMessage : String :=
  "Failed to upload image: Invalid response from server"

/-- The generic fallback of the `onDrop` catch clause. -/
def uploadFallbackMessage : String :=
  "Failed to upload images. Please try again."

/-- The delete calls issued by the cleanup-before-replace loop of `onDrop`:
one per existing image whose id is truthy and lacks the `local_` marker.
Outcomes of these deletes are logged and swallowed by the source, so only
the calls themselves are observable. -/
def cleanupDeleteCalls (imgs : List CloudflareImage) : List NetCall :=
  (imgs.filter (fun im => im.id != "" && !(jsStartsWith im.id "local_"))).map
    (fun im => NetCall.deleteImage im.id)

/-- Accumulated observations of the upload loop of `onDrop`. -/
structure LoopResult where
  reports : List Nat
  calls : List NetCall
  outcome : Except String (List CloudflareImage)
deriving Repr

/-- The per-file upload loop of `onDrop`.  `total` is the batch size,
`i` the index of the first remaining file, `oracle j` the outcome of the
upload call for the j-th file of the batch.  Progress is reported before
each upload; a thrown error or a malformed response aborts the loop. -/
def uploadLoop (cfg : UploaderConfig) (nowIso : String)
    (oracle : Nat → UploadOutcome) (total : Nat) :
    Nat → List DroppedFile → LoopResult
  | _, [] => ⟨[], [], Except.ok []⟩
  | i, f :: rest =>
    let prog := jsRound100 i total
    match oracle i with
    | UploadOutcome.threw msg => ⟨[prog], [NetCall.uploadImage i], Except.error msg⟩
    | UploadOutcome.returned r =>
      match r.success, r.image with
      | true, some p =>
        let img := mkNewImage cfg nowIso f i p
        let lr := uploadLoop cfg nowIso oracle total (i + 1) rest
        ⟨prog :: lr.reports, NetCall.uploadImage i :: lr.calls,
          match lr.outcome with
          | Except.ok imgs => Except.ok (img :: imgs)
          | Except.error e => Except.error e⟩
      | _, _ => ⟨[prog], [NetCall.uploadImage i], Except.error invalidResponseMessage⟩

/-- The `onDrop` handler.  The capacity check aborts before any effect;
otherwise, when `maxImages = 1` and images exist, the cleanup deletes are
issued; then the upload loop runs; on success the list is replaced
(`maxImages = 1`) or extended and the caller notified; on a caught error the
message (or the generic fallback when it is empty) is placed in the error
slot.  `finally` resets `isUploading` and the progress. -/
def onDrop (cfg : UploaderConfig) (nowIso : String)
    (oracle : Nat → UploadOutcome) (st : DropState)
    (acceptedFiles : List DroppedFile) : DropResult :=
  if st.uploadedImages.length + acceptedFiles.length > cfg.maxImages then
    { state := { st with error := some (capacityMessage cfg.maxImages) }
      calls := []
      notified := none
      progressReports := [] }
  else
    let cleanup := if cfg.maxImages = 1 && st.uploadedImages.length > 0 then
      cleanupDeleteCalls st.uploadedImages else []
    let lr := uploadLoop cfg nowIso oracle acceptedFiles.length 0 acceptedFiles
    match lr.outcome with
    | Except.ok newImages =>
      let updated := if cfg.maxImages = 1 then newImages
        else st.uploadedImages ++ newImages
      { state :=
          { uploadedImages := updated
            isUploading := false
            uploadProgress := 0
            error := none }
        calls := cleanup ++ lr.calls
        notified := some updated
        progressReports := lr.reports }
    | Except.error msg =>
      { state :=
          { st with
            isUploading := false
            uploadProgress := 0
            error := some (jsOrStr (some msg) uploadFallbackMessage) }
        calls := cleanup ++ lr.calls
        notified := none
        progressReports := lr.reports }

/-- Result of `handleRemoveImage`: the final list, the list passed to
`onImagesUploaded` (if reached), the error slot (unchanged from `prevError`
when no exception occurred), the delete calls issued, and the blob URLs
revoked. -/
structure RemoveResult where
  images : List CloudflareImage
  notified : Option (List CloudflareImage)
  error : Option String
  calls : List NetCall
  revoked : List String
deriving Repr, DecidableEq

/-- The error message of the JS `TypeError` raised when
`uploadedImages[index]` is `undefined` and `.id` is read. -/
def undefinedIndexMessage : String :=
  "Cannot read properties of undefined (reading 'id')"

/-- The fallback message of the `handleRemoveImage` catch clause. -/
def removeFallbackMessage : String :=
  "Failed to remove image"

/-- `handleRemoveImage`: deletes the image remotely unless its id is falsy
or carries the `local_` marker, revokes a blob preview URL, then removes the
entry and notifies the caller.  A thrown delete error is caught before the
list mutation, so the list stays unchanged and only the error slot is set.
An out-of-range index raises a `TypeError` that the same catch clause
turns into an error message. -/
def handleRemoveImage (imgs : List CloudflareImage) (prevError : Option String)
    (deleteOutcome : String → Except String Unit) (index : Nat) :
    RemoveResult :=
  match imgs.get? index with
  | none =>
    { images := imgs
      notified := none
      error := some undefinedIndexMessage
      calls := []
      revoked := [] }
  | some imageToRemove =>
    let wantDelete := imageToRemove.id != "" &&
      !(jsStartsWith imageToRemove.id "local_")
    let deleteCalls := if wantDelete then
      [NetCall.deleteImage imageToRemove.id] else []
    let deleteResult : Except String Unit := if wantDelete then
      deleteOutcome imageToRemove.id else Except.ok ()
    match deleteResult with
    | Except.error msg =>
      { images := imgs
        notified := none
        error := some (jsOrStr (some msg) removeFallbackMessage)
        calls := deleteCalls
        revoked := [] }
    | Except.ok _ =>
      let revoked := match imageToRemove.url with
        | some u => if jsStartsWith u "blob:" then [u] else []
        | none => []
      let newImages := imgs.eraseIdx index
      { images := newImages
        notified := some newImages
        error := prevError
        calls := deleteCalls
        revoked := revoked }

/-- The editing context held while the metadata dialog is open. -/
structure EditCtx where
  image : CloudflareImage
  index : Nat
deriving Repr, DecidableEq

/-- Result of `handleSaveImageMetadata`: the final list, the notification,
and the editing context after the call. -/
structure SaveResult where
  images : List CloudflareImage
  notified : Option (List CloudflareImage)
  editCtx : Option EditCtx
deriving Repr, DecidableEq

/-- `handleSaveImageMetadata`: with no editing context it is a no-op;
otherwise it writes the editing copy at its original index, notifies the
caller with the new list and discards the context.  (The JS assignment
`newImages[index] = image` on an in-range index is `List.set`; the
out-of-range array extension JS would perform is not modelled, theorems
about this operation assume an in-range index.) -/
def handleSaveImageMetadata (imgs : List CloudflareImage)
    (ctx : Option EditCtx) : SaveResult :=
  match ctx with
  | none => { images := imgs, notified := none, editCtx := none }
  | some c =>
    let newImages := imgs.set c.index c.image
    { images := newImages, notified := some newImages, editCtx := none }

/-- `getCloudflareImageUrl`: a falsy stored value yields the empty string; a
`blob:` or `http` value is returned unchanged; otherwise, when both the
delivery URL and the account hash are truthy, the delivery URL is composed;
failing that the stored value is returned. -/
def getCloudflareImageUrl (cfg : UploaderConfig) (imageUrl : Option String)
    (variant : String) : String :=
  match imageUrl with
  | none => ""
  | some s =>
    if s = "" then ""
    else if jsStartsWith s "blob:" || jsStartsWith s "http" then s
    else if cfg.cfImageDeliveryUrl != "" && cfg.cfAccountHash != "" then
      cfg.cfImageDeliveryUrl ++ "/" ++ cfg.cfAccountHash ++ "/" ++ s ++ "/" ++
        variant
    else s

/-- Parse status of a response body read by `response.json()` on the error
path of `fetchWithAuth`: either the promise rejects (not parseable JSON), or
it yields an object whose `error` field is the given optional string. -/
inductive JsonBody where
  | unparseable : JsonBody
  | parsed : Option String → JsonBody
deriving Repr, DecidableEq

/-- The authentication-expired message of `fetchWithAuth`. -/
def sessionExpiredMessage : String :=
  "Session expired. Please log in again."

/-- The error message `fetchWithAuth` throws for a non-success response:
401 short-circuits; otherwise `response.json()` is attempted, a rejection
is replaced by `{ error: 'Unknown error' }`, and the thrown message is
`errorData.error || 'API error: <status>'`. -/
def fetchErrorMessage (status : Nat) (body : JsonBody) : String :=
  if status = 401 then sessionExpiredMessage
  else
    let errorData : Option String := match body with
      | JsonBody.unparseable => some "Unknown error"
      | JsonBody.parsed e => e
    jsOrStr errorData ("API error: " ++ toString status)

/-- The response handling of `fetchWithAuth` (the part after `await fetch`):
`response.ok` means a 2xx status; a non-ok response throws the translated
error message, an ok response resolves to its parsed body. -/
def fetchWithAuthResult (status : Nat) (body : JsonBody) :
    Except String JsonBody :=
  if 200 ≤ status ∧ status < 300 then Except.ok body
  else Except.error (fetchErrorMessage status body)

/-- Whether an upload call outcome has the success shape `onDrop` accepts:
a resolved response with `success` true and an `image` payload. -/
def uploadOk : UploadOutcome → Bool
  | UploadOutcome.threw _ => false
  | UploadOutcome.returned r => r.success && r.image.isSome

/-! ### Concrete fixtures used by witnesses and counterexamples -/

def imgFix1 : CloudflareImage :=
  ⟨"img_1", some "https://x/1", none, none, [], none⟩

def imgFix2 : CloudflareImage :=
  ⟨"img_2", some "https://x/2", none, none, [], none⟩

def imgLocalFix : CloudflareImage :=
  ⟨"local_7", some "blob:preview-7", none, none, [], none⟩

def fileFix : DroppedFile := ⟨"photo.jpg", "image/jpeg", 123⟩

def payloadFix : ImagePayload := ⟨"cf_42", VariantsVal.undef, none, none⟩

def okOracleFix : Nat → UploadOutcome :=
  fun _ => UploadOutcome.returned ⟨true, some payloadFix⟩

def failDeleteFix : String → Except String Unit :=
  fun _ => Except.error "delete failed"

def cfgFix1 : UploaderConfig :=
  ⟨1, some "proj", none, none, "https://imagedelivery.net", "hash1",
    "autoelite", "autoelite"⟩

def cfgFix10 : UploaderConfig := { cfgFix1 with maxImages := 10 }

def stEmptyFix : DropState := ⟨[], false, 0, none⟩

def stOneFix : DropState := ⟨[imgFix1], false, 0, none⟩

def stTwoFix : DropState := ⟨[imgFix1, imgFix2], false, 0, none⟩

/-! ### Claims -/

/-- Claim C1: for every batch of accepted files, if the current image count
plus the batch size exceeds `maxImages`, `onDrop` sets the capacity error,
makes no upload or delete network call, notifies nobody, and leaves the
local image list and the `isUploading` flag unchanged. -/
theorem onDrop_capacity_exceeded (cfg : UploaderConfig) (nowIso : String)
    (oracle : Nat → UploadOutcome) (st : DropState)
    (files : List DroppedFile)
    (h : st.uploadedImages.length + files.length > cfg.maxImages) :
    (onDrop cfg nowIso oracle st files).state.error
        = some (capacityMessage cfg.maxImages) ∧
    (onDrop cfg nowIso oracle st files).calls = [] ∧
    (onDrop cfg nowIso oracle st files).notified = none ∧
    (onDrop cfg nowIso oracle st files).state.uploadedImages
        = st.uploadedImages ∧
    (onDrop cfg nowIso oracle st files).state.isUploading
        = st.isUploading := by
  simp [onDrop, h]

theorem onDrop_capacity_exceeded_witness :
    stOneFix.uploadedImages.length + [fileFix].length > cfgFix1.maxImages ∧
    ((onDrop cfgFix1 "t" okOracleFix stOneFix [fileFix]).state.error
        = some (capacityMessage cfgFix1.maxImages) ∧
     (onDrop cfgFix1 "t" okOracleFix stOneFix [fileFix]).calls = [] ∧
     (onDrop cfgFix1 "t" okOracleFix stOneFix [fileFix]).notified = none ∧
     (onDrop cfgFix1 "t" okOracleFix stOneFix [fileFix]).state.uploadedImages
        = stOneFix.uploadedImages ∧
     (onDrop cfgFix1 "t" okOracleFix stOneFix [fileFix]).state.isUploading
        = stOneFix.isUploading) :=
  ⟨by decide,
    onDrop_capacity_exceeded cfgFix1 "t" okOracleFix stOneFix [fileFix]
      (by decide)⟩

/-- Claim C2 (code bug): the claimed delete-then-upload replacement for
`maxImages = 1` with one existing image `"img_1"` and one dropped file never
happens: the capacity check `1 + 1 > 1` fires first, so `onDrop` sets the
capacity error and issues no network call, leaving the list unchanged —
although the source's own comments document the delete-before-replace
intent.  This theorem evaluates the code at the failing input. -/
theorem onDrop_single_replace_blocked :
    onDrop cfgFix1 "t" okOracleFix stOneFix [fileFix] =
      ⟨⟨[imgFix1], false, 0, some (capacityMessage 1)⟩, [], none, []⟩ := by
  decide

/-- Claim C7: `getCloudflareImageUrl` returns a `blob:`/`http` value
unchanged and otherwise (for a truthy stored value and a configured
delivery base and account hash) composes delivery base, account hash,
stored identifier and variant. -/
theorem getCloudflareImageUrl_spec (cfg : UploaderConfig)
    (s variant : String) (hs : s ≠ "")
    (hbase : cfg.cfImageDeliveryUrl ≠ "") (hhash : cfg.cfAccountHash ≠ "") :
    ((jsStartsWith s "blob:" || jsStartsWith s "http") = true →
       getCloudflareImageUrl cfg (some s) variant = s) ∧
    ((jsStartsWith s "blob:" || jsStartsWith s "http") = false →
       getCloudflareImageUrl cfg (some s) variant =
         cfg.cfImageDeliveryUrl ++ "/" ++ cfg.cfAccountHash ++ "/" ++ s ++
           "/" ++ variant) := by
  constructor
  · intro h
    simp [getCloudflareImageUrl, hs, h]
  · intro h
    simp only [Bool.or_eq_false_iff] at h
    simp [getCloudflareImageUrl, hs, h.1, h.2, hbase, hhash]

theorem getCloudflareImageUrl_spec_witness :
    ("abc123" : String) ≠ "" ∧ cfgFix1.cfImageDeliveryUrl ≠ "" ∧
    cfgFix1.cfAccountHash ≠ "" ∧
    getCloudflareImageUrl cfgFix1 (some "abc123") "public" =
      "https://imagedelivery.net/hash1/abc123/public" :=
  ⟨by decide, by decide, by decide,
    (getCloudflareImageUrl_spec cfgFix1 "abc123" "public" (by decide)
      (by decide) (by decide)).2 (by decide)⟩

/-- Claim C4, counterexample: for a non-success status whose body is not
parseable JSON, `fetchWithAuth` does not fail with the generic
"API error: status" message as claimed — the rejected `response.json()` is
replaced by `{ error: 'Unknown error' }`, so the thrown message is
"Unknown error". -/
theorem fetchWithAuth_unparseable_counterexample :
    fetchWithAuthResult 500 JsonBody.unparseable =
      Except.error "Unknown error" ∧
    Except.error (ε := String) (α := JsonBody) "Unknown error" ≠
      Except.error "API error: 500" := by
  constructor
  · rfl
  · intro h
    have hmsg : ("Unknown error" : String) = "API error: 500" := by
      injection h
    exact absurd hmsg (by decide)

/-- Claim C4 as amended: on a non-success status, 401 fails with the
session-expired message; otherwise the call fails with the error message of
the parsed JSON body when one is present and nonempty, with "Unknown error"
when the body is not parseable JSON, and with "API error: status" when the
body parses but carries no (or an empty) error message. -/
theorem fetchWithAuth_error_translation (status : Nat) (body : JsonBody)
    (hfail : ¬(200 ≤ status ∧ status < 300)) :
    (status = 401 →
       fetchWithAuthResult status body =
         Except.error sessionExpiredMessage) ∧
    (status ≠ 401 → body = JsonBody.unparseable →
       fetchWithAuthResult status body = Except.error "Unknown error") ∧
    (status ≠ 401 → ∀ m, m ≠ "" → body = JsonBody.parsed (some m) →
       fetchWithAuthResult status body = Except.error m) ∧
    (status ≠ 401 → body = JsonBody.parsed none →
       fetchWithAuthResult status body =
         Except.error ("API error: " ++ toString status)) ∧
    (status ≠ 401 → body = JsonBody.parsed (some "") →
       fetchWithAuthResult status body =
         Except.error ("API error: " ++ toString status)) := by
  refine ⟨?_, ?_, ?_, ?_, ?_⟩
  · intro h401
    simp [fetchWithAuthResult, hfail, fetchErrorMessage, h401]
  · intro h401 hbody
    subst hbody
    simp [fetchWithAuthResult, hfail, fetchErrorMessage, h401, jsOrStr]
  · intro h401 m hm hbody
    subst hbody
    simp [fetchWithAuthResult, hfail, fetchErrorMessage, h401, jsOrStr, hm]
  · intro h401 hbody
    subst hbody
    simp [fetchWithAuthResult, hfail, fetchErrorMessage, h401, jsOrStr]
  · intro h401 hbody
    subst hbody
    simp [fetchWithAuthResult, hfail, fetchErrorMessage, h401, jsOrStr]

theorem fetchWithAuth_error_translation_witness :
    ¬(200 ≤ 404 ∧ 404 < 300) ∧ (404 : Nat) ≠ 401 ∧ ("Not found" : String) ≠ "" ∧
    fetchWithAuthResult 404 (JsonBody.parsed (some "Not found")) =
      Except.error "Not found" :=
  ⟨by decide, by decide, by decide,
    (fetchWithAuth_error_translation 404 (JsonBody.parsed (some "Not found"))
      (by decide)).2.2.1 (by decide) "Not found" (by decide) rfl⟩

/-- Claim C3: the record built from a successful upload response takes its
`url` from the first entry of the response's variant array when one is
present, and otherwise (variants absent) from the URL composed of the
delivery base, the account hash, the response id and the "public" variant
suffix. -/
theorem mkNewImage_url_spec (cfg : UploaderConfig) (nowIso : String)
    (f : DroppedFile) (i : Nat) (p : ImagePayload) :
    (p.variants = VariantsVal.undef →
       (mkNewImage cfg nowIso f i p).url =
         some (cfFallbackUrl cfg.cfAccountHash p.id)) ∧
    (∀ x xs, p.variants = VariantsVal.arr (x :: xs) →
       (mkNewImage cfg nowIso f i p).url = some x) := by
  constructor
  · intro h
    simp [mkNewImage, mkUploadUrl, h]
  · intro x xs h
    simp [mkNewImage, mkUploadUrl, h]

theorem mkNewImage_url_spec_witness :
    payloadFix.variants = VariantsVal.undef ∧
    (mkNewImage cfgFix1 "t" fileFix 0 payloadFix).url =
      some (cfFallbackUrl cfgFix1.cfAccountHash payloadFix.id) :=
  ⟨rfl, (mkNewImage_url_spec cfgFix1 "t" fileFix 0 payloadFix).1 rfl⟩

/-- Claim C5: when the remote delete of `handleRemoveImage` throws, the
local list is completely unchanged, the caller is not notified, and the
error slot holds the failure's message; the only network call is the failed
delete. -/
theorem handleRemoveImage_delete_failure (imgs : List CloudflareImage)
    (prevError : Option String) (del : String → Except String Unit)
    (index : Nat) (img : CloudflareImage) (msg : String)
    (hidx : imgs.get? index = some img)
    (hid : img.id ≠ "")
    (hlocal : jsStartsWith img.id "local_" = false)
    (hdel : del img.id = Except.error msg)
    (hmsg : msg ≠ "") :
    handleRemoveImage imgs prevError del index =
      ⟨imgs, none, some msg, [NetCall.deleteImage img.id], []⟩ := by
  unfold handleRemoveImage
  rw [hidx]
  simp [hid, hlocal, hdel, jsOrStr, hmsg]

theorem handleRemoveImage_delete_failure_witness :
    ([imgFix1] : List CloudflareImage).get? 0 = some imgFix1 ∧
    imgFix1.id ≠ "" ∧
    jsStartsWith imgFix1.id "local_" = false ∧
    failDeleteFix imgFix1.id = Except.error "delete failed" ∧
    ("delete failed" : String) ≠ "" ∧
    handleRemoveImage [imgFix1] none failDeleteFix 0 =
      ⟨[imgFix1], none, some "delete failed",
        [NetCall.deleteImage imgFix1.id], []⟩ :=
  ⟨rfl, by decide, by decide, rfl, by decide,
    handleRemoveImage_delete_failure [imgFix1] none failDeleteFix 0 imgFix1
      "delete failed" rfl (by decide) (by decide) rfl (by decide)⟩

/-- Claim C8: removing an image whose id carries the `local_` marker issues
no network call at all; the entry is removed from the local list and the
caller is notified with the shortened list. -/
theorem handleRemoveImage_local_no_delete (imgs : List CloudflareImage)
    (prevError : Option String) (del : String → Except String Unit)
    (index : Nat) (img : CloudflareImage)
    (hidx : imgs.get? index = some img)
    (hlocal : jsStartsWith img.id "local_" = true) :
    (handleRemoveImage imgs prevError del index).calls = [] ∧
    (handleRemoveImage imgs prevError del index).images =
      imgs.eraseIdx index ∧
    (handleRemoveImage imgs prevError del index).notified =
      some (imgs.eraseIdx index) := by
  unfold handleRemoveImage
  rw [hidx]
  simp [hlocal]

theorem handleRemoveImage_local_no_delete_witness :
    ([imgLocalFix] : List CloudflareImage).get? 0 = some imgLocalFix ∧
    jsStartsWith imgLocalFix.id "local_" = true ∧
    ((handleRemoveImage [imgLocalFix] none failDeleteFix 0).calls = [] ∧
     (handleRemoveImage [imgLocalFix] none failDeleteFix 0).images =
       ([imgLocalFix] : List CloudflareImage).eraseIdx 0 ∧
     (handleRemoveImage [imgLocalFix] none failDeleteFix 0).notified =
       some (([imgLocalFix] : List CloudflareImage).eraseIdx 0)) :=
  ⟨rfl, by decide,
    handleRemoveImage_local_no_delete [imgLocalFix] none failDeleteFix 0
      imgLocalFix rfl (by decide)⟩

/-- Claim C9: saving edited metadata writes the edited copy at the editing
context's original index, leaves every other entry at its position, keeps
the length, notifies the caller with the resulting list and discards the
editing context. -/
theorem handleSaveImageMetadata_frame (imgs : List CloudflareImage)
    (img : CloudflareImage) (idx : Nat) (hidx : idx < imgs.length) :
    (handleSaveImageMetadata imgs (some ⟨img, idx⟩)).images.length =
      imgs.length ∧
    (handleSaveImageMetadata imgs (some ⟨img, idx⟩)).images.get? idx =
      some img ∧
    (∀ j, j ≠ idx →
      (handleSaveImageMetadata imgs (some ⟨img, idx⟩)).images.get? j =
        imgs.get? j) ∧
    (handleSaveImageMetadata imgs (some ⟨img, idx⟩)).notified =
      some ((handleSaveImageMetadata imgs (some ⟨img, idx⟩)).images) ∧
    (handleSaveImageMetadata imgs (some ⟨img, idx⟩)).editCtx = none := by
  refine ⟨?_, ?_, ?_, rfl, rfl⟩
  · simp [handleSaveImageMetadata]
  · simp [handleSaveImageMetadata, List.getElem?_set_eq_of_lt _ hidx]
  · intro j hj
    simp [handleSaveImageMetadata, List.getElem?_set_ne (Ne.symm hj)]

theorem handleSaveImageMetadata_frame_witness :
    (0 : Nat) < ([imgFix1, imgFix2] : List CloudflareImage).length ∧
    (handleSaveImageMetadata [imgFix1, imgFix2]
        (some ⟨imgLocalFix, 0⟩)).images.get? 0 = some imgLocalFix ∧
    (handleSaveImageMetadata [imgFix1, imgFix2]
        (some ⟨imgLocalFix, 0⟩)).images.get? 1 =
      ([imgFix1, imgFix2] : List CloudflareImage).get? 1 :=
  ⟨by decide,
    (handleSaveImageMetadata_frame [imgFix1, imgFix2] imgLocalFix 0
      (by decide)).2.1,
    (handleSaveImageMetadata_frame [imgFix1, imgFix2] imgLocalFix 0
      (by decide)).2.2.1 1 (by decide)⟩

/-- Helper: when every upload of the remaining batch succeeds, the upload
loop reports exactly the rounded percentages of the indices it visits. -/
theorem uploadLoop_reports_all_ok (cfg : UploaderConfig) (nowIso : String)
    (oracle : Nat → UploadOutcome) (total : Nat) :
    ∀ (files : List DroppedFile) (i : Nat),
      (∀ j, j < files.length → uploadOk (oracle (i + j)) = true) →
      (uploadLoop cfg nowIso oracle total i files).reports =
        (List.range files.length).map (fun k => jsRound100 (i + k) total) := by
  intro files
  induction files with
  | nil => intro i _; rfl
  | cons f rest ih =>
    intro i h
    have h0 : uploadOk (oracle i) = true := by
      have := h 0 (by simp)
      simpa using this
    cases ho : oracle i with
    | threw msg =>
      rw [ho] at h0
      simp [uploadOk] at h0
    | returned r =>
      rw [ho] at h0
      simp only [uploadOk, Bool.and_eq_true, Option.isSome_iff_exists] at h0
      obtain ⟨hs, p, hp⟩ := h0
      have ihr := ih (i + 1) ?_
      · simp only [uploadLoop, ho, hs, hp]
        rw [ihr]
        simp only [List.length_cons]
        rw [List.range_succ_eq_map]
        simp only [List.map_cons, List.map_map, Nat.add_zero]
        congr 1
        apply List.map_congr_left
        intro k _
        simp only [Function.comp_apply]
        congr 1
        omega
      · intro j hj
        have hjh := h (j + 1) (by simpa using Nat.succ_lt_succ hj)
        have harith : i + (j + 1) = i + 1 + j := by omega
        rwa [harith] at hjh

/-- Helper: below capacity, the progress reports of `onDrop` are those of
its upload loop, whether the batch succeeds or fails. -/
theorem onDrop_reports_eq (cfg : UploaderConfig) (nowIso : String)
    (oracle : Nat → UploadOutcome) (st : DropState)
    (files : List DroppedFile)
    (hcap : ¬(st.uploadedImages.length + files.length > cfg.maxImages)) :
    (onDrop cfg nowIso oracle st files).progressReports =
      (uploadLoop cfg nowIso oracle files.length 0 files).reports := by
  unfold onDrop
  rw [if_neg hcap]
  cases h : (uploadLoop cfg nowIso oracle files.length 0 files).outcome <;>
    simp [h]

/-- Claim C6, counterexample: with a three-file batch the progress reported
when the third file (0-based index 2) starts is 67 — the source uses
`Math.round`, so `round(200/3) = 67` — whereas the claimed
`floor(100 * 2 / 3)` is 66. -/
theorem onDrop_progress_floor_counterexample :
    (onDrop cfgFix10 "t" okOracleFix stEmptyFix
        [fileFix, fileFix, fileFix]).progressReports.get? 2 = some 67 ∧
    (67 : Nat) ≠ 100 * 2 / 3 := by
  constructor
  · rfl
  · decide

/-- Claim C6 as amended: during a batch upload in which every upload call
succeeds, the progress value reported when the i-th file starts is
`round(100 * i / batch_size)` (round half up), i.e.
`(200 * i + n) / (2 * n)` in integer arithmetic — not the floor. -/
theorem onDrop_progress_rounded (cfg : UploaderConfig) (nowIso : String)
    (oracle : Nat → UploadOutcome) (st : DropState)
    (files : List DroppedFile) (i : Nat)
    (hcap : st.uploadedImages.length + files.length ≤ cfg.maxImages)
    (hok : ∀ j, j < files.length → uploadOk (oracle j) = true)
    (hi : i < files.length) :
    (onDrop cfg nowIso oracle st files).progressReports.get? i =
      some ((200 * i + files.length) / (2 * files.length)) := by
  have hcap' : ¬(st.uploadedImages.length + files.length > cfg.maxImages) := by
    omega
  rw [onDrop_reports_eq cfg nowIso oracle st files hcap']
  rw [uploadLoop_reports_all_ok cfg nowIso oracle files.length files 0
    (by simpa using hok)]
  simp [List.get?_eq_getElem?, List.getElem?_range, hi, jsRound100]

theorem onDrop_progress_rounded_witness :
    stEmptyFix.uploadedImages.length +
        ([fileFix, fileFix, fileFix] : List DroppedFile).length ≤
      cfgFix10.maxImages ∧
    (∀ j, j < ([fileFix, fileFix, fileFix] : List DroppedFile).length →
      uploadOk (okOracleFix j) = true) ∧
    (2 : Nat) < ([fileFix, fileFix, fileFix] : List DroppedFile).length ∧
    (onDrop cfgFix10 "t" okOracleFix stEmptyFix
        [fileFix, fileFix, fileFix]).progressReports.get? 2 =
      some ((200 * 2 + 3) / (2 * 3)) :=
  ⟨by decide, by decide, by decide,
    onDrop_progress_rounded cfgFix10 "t" okOracleFix stEmptyFix
      [fileFix, fileFix, fileFix] 2 (by decide) (by decide) (by decide)⟩

/-- Claim C10, counterexample: with `maxImages = 1` and two existing images
an empty batch does not pass the capacity check (2 + 0 > 1): the capacity
error is set, no delete is issued, the list is unchanged and nobody is
notified — contradicting the claim for "at least one existing image". -/
theorem onDrop_empty_batch_two_existing_counterexample :
    (onDrop cfgFix1 "t" okOracleFix stTwoFix []).calls = [] ∧
    (onDrop cfgFix1 "t" okOracleFix stTwoFix []).state.error =
      some (capacityMessage 1) ∧
    (onDrop cfgFix1 "t" okOracleFix stTwoFix []).state.uploadedImages =
      [imgFix1, imgFix2] ∧
    (onDrop cfgFix1 "t" okOracleFix stTwoFix []).notified = none := by
  refine ⟨rfl, rfl, rfl, rfl⟩

/-- Claim C10 as amended: with `maxImages = 1` and exactly one existing
image with a truthy id, an empty batch passes the capacity check, issues a
remote delete for that image unless its id carries the `local_` marker,
performs no upload call, replaces the local list with the empty list and
notifies the caller with it. -/
theorem onDrop_empty_batch_single_replace (cfg : UploaderConfig)
    (nowIso : String) (oracle : Nat → UploadOutcome) (st : DropState)
    (i1 : CloudflareImage)
    (hmax : cfg.maxImages = 1)
    (himgs : st.uploadedImages = [i1])
    (hid : i1.id ≠ "") :
    (onDrop cfg nowIso oracle st []).calls =
      (if jsStartsWith i1.id "local_" then []
       else [NetCall.deleteImage i1.id]) ∧
    (onDrop cfg nowIso oracle st []).state.uploadedImages = [] ∧
    (onDrop cfg nowIso oracle st []).notified = some [] ∧
    (onDrop cfg nowIso oracle st []).progressReports = [] := by
  have hcap : ¬(st.uploadedImages.length + ([] : List DroppedFile).length >
      cfg.maxImages) := by
    rw [himgs, hmax]
    simp
  unfold onDrop
  rw [if_neg hcap]
  cases hl : jsStartsWith i1.id "local_" <;>
    simp [himgs, hmax, cleanupDeleteCalls, uploadLoop, hid, hl]

theorem onDrop_empty_batch_single_replace_witness :
    cfgFix1.maxImages = 1 ∧
    stOneFix.uploadedImages = [imgFix1] ∧
    imgFix1.id ≠ "" ∧
    ((onDrop cfgFix1 "t" okOracleFix stOneFix []).calls =
       (if jsStartsWith imgFix1.id "local_" then []
        else [NetCall.deleteImage imgFix1.id]) ∧
     (onDrop cfgFix1 "t" okOracleFix stOneFix []).state.uploadedImages =
       [] ∧
     (onDrop cfgFix1 "t" okOracleFix stOneFix []).notified = some [] ∧
     (onDrop cfgFix1 "t" okOracleFix stOneFix []).progressReports = []) :=
  ⟨rfl, rfl, by decide,
    onDrop_empty_batch_single_replace cfgFix1 "t" okOracleFix stOneFix
      imgFix1 rfl rfl (by decide)⟩
